import Mathlib

set_option allowUnsafeReducibility true

attribute [semireducible] Rat.mul Rat.add Rat.sub Rat.inv Rat.div Rat.ofScientific

/-!
Verification of the Gurukul quiz generation/evaluation modules
(`quiz_generator.py`, `quiz_evaluator.py`).

Strings are modelled as `List Char`; Python scalar values that flow through
`Any`-typed positions are modelled by `PyVal`; rational arithmetic (`ℚ`)
stands for Python float arithmetic.  Dictionary keys that may be absent are
modelled with `Option`.
-/

/-- Python scalar values appearing in quiz dictionaries and user answers. -/
inductive PyVal where
  | none
  | bool (b : Bool)
  | int (n : Int)
  | str (s : List Char)
deriving DecidableEq, Repr

/-- Python `==` restricted to the scalar values above (`True == 1`, etc.). -/
def pyEq : PyVal → PyVal → Bool
  | .none, .none => true
  | .bool x, .bool y => x == y
  | .int x, .int y => x == y
  | .bool x, .int y => (if x then (1 : Int) else 0) == y
  | .int x, .bool y => x == (if y then (1 : Int) else 0)
  | .str x, .str y => x == y
  | _, _ => false

/-- Python truthiness of a scalar value. -/
def pyTruthy : PyVal → Bool
  | .none => false
  | .bool b => b
  | .int n => n != 0
  | .str s => !s.isEmpty

/-- Python `str(...)` on a scalar value. -/
def pyStr : PyVal → List Char
  | .none => "None".toList
  | .bool true => "True".toList
  | .bool false => "False".toList
  | .int n => (toString n).toList
  | .str s => s

/-- Characters stripped by Python `str.strip()` (ASCII whitespace). -/
def isPySpace (c : Char) : Bool :=
  c == ' ' || c == '\t' || c == '\n' || c == '\r' || c == '\x0b' || c == '\x0c'

/-- Python `str.strip()`. -/
def pyStrip (s : List Char) : List Char :=
  ((s.dropWhile isPySpace).reverse.dropWhile isPySpace).reverse

/-- Python `str.lower()` (ASCII, which covers the strings produced here). -/
def pyLower (s : List Char) : List Char :=
  s.map Char.toLower

/-- Floor of a rational, computed on the numerator and denominator
(equal to `Int.floor`, see `ratFloor_eq_floor`). -/
def ratFloor (q : ℚ) : Int :=
  q.num / q.den

/-- Python `int(...)` on a float/rational value (truncation toward zero). -/
def pyTrunc (q : ℚ) : Int :=
  Int.tdiv q.num q.den

/-- Python `round(x, 2)` idealized over ℚ (round half to even). -/
def pyRound2 (q : ℚ) : ℚ :=
  let x := q * 100
  let f : Int := ratFloor x
  let r := x - f
  let n : Int :=
    if r < 1/2 then f else if 1/2 < r then f + 1 else if f % 2 = 0 then f else f + 1
  (n : ℚ) / 100

/-- A regex `\w` word character (ASCII, as used by the quiz strings). -/
def isWordChar (c : Char) : Bool :=
  c.isAlphanum || c == '_'

/-- Helper for `tokenize`: accumulates the current word run (reversed). -/
def tokenizeAux : List Char → List Char → List (List Char)
  | [], acc => if acc.isEmpty then [] else [acc.reverse]
  | c :: rest, acc =>
    if isWordChar c then tokenizeAux rest (c :: acc)
    else if acc.isEmpty then tokenizeAux rest []
    else acc.reverse :: tokenizeAux rest []

/-- Model of `re.findall(r'\b\w+\b', s)`: the maximal word-character runs of `s`. -/
def tokenize (s : List Char) : List (List Char) :=
  tokenizeAux s []

/-- Python `t in s` substring test on strings. -/
def isSub (t s : List Char) : Bool :=
  (List.range (s.length + 1)).any (fun i => (s.drop i).take t.length == t)

/-!
Model of `difflib.SequenceMatcher(None, a, b).ratio()` for inputs below the
autojunk threshold (all strings compared by the evaluator): the greedy
decomposition into matching blocks, each block being the longest common
contiguous block of the current window, ties broken by least start in `a`
then least start in `b`, recursing on the fragments left and right of the
block; the ratio is `2 * matched / (len a + len b)`, and `1` when both
strings are empty.
-/

/-- Length of the longest common prefix of two strings. -/
def matchLen : List Char → List Char → Nat
  | x :: xs, y :: ys => if x = y then matchLen xs ys + 1 else 0
  | _, _ => 0

/-- Length of the matching block starting at `(i, j)`, clipped to the
window ends `ahi`, `bhi`. -/
def kAt (a b : List Char) (ahi bhi i j : Nat) : Nat :=
  matchLen ((a.drop i).take (ahi - i)) ((b.drop j).take (bhi - j))

/-- One step of the scan for the best matching block: replace the current
best `(i, j, k)` only on a strictly longer match, which realizes the
least-`i`-then-least-`j` tie break of `find_longest_match`. -/
def bestStep (a b : List Char) (ahi bhi : Nat)
    (best : Nat × Nat × Nat) (p : Nat × Nat) : Nat × Nat × Nat :=
  let k := kAt a b ahi bhi p.1 p.2
  if best.2.2 < k then (p.1, p.2, k) else best

/-- All candidate block starts of the window, scanned in the same order as
`find_longest_match` (ascending `i`, then ascending `j`). -/
def pairList (alo ahi blo bhi : Nat) : List (Nat × Nat) :=
  (List.range' alo (ahi - alo)).flatMap
    (fun i => (List.range' blo (bhi - blo)).map (fun j => (i, j)))

/-- Model of `find_longest_match` on the window `[alo, ahi) × [blo, bhi)`:
the longest matching block, ties broken by least `i` then least `j`;
`(alo, blo, 0)` when the window has no match. -/
def findBest (a b : List Char) (alo ahi blo bhi : Nat) : Nat × Nat × Nat :=
  (pairList alo ahi blo bhi).foldl (bestStep a b ahi bhi) (alo, blo, 0)

/-- Total size of the greedy non-overlapping matching blocks
(`get_matching_blocks`), with explicit fuel; the fuel passed by `textSimilarity`
is always sufficient. -/
def totalMatch (a b : List Char) : Nat → Nat → Nat → Nat → Nat → Nat
  | 0, _, _, _, _ => 0
  | fuel + 1, alo, ahi, blo, bhi =>
    let best := findBest a b alo ahi blo bhi
    if best.2.2 = 0 then 0
    else
      totalMatch a b fuel alo best.1 blo best.2.1 + best.2.2 +
        totalMatch a b fuel (best.1 + best.2.2) ahi (best.2.1 + best.2.2) bhi

/-- Model of `SequenceMatcher(None, a, b).ratio()`. -/
def textSimilarity (a b : List Char) : ℚ :=
  if a.length + b.length = 0 then 1
  else
    2 * (totalMatch a b (a.length + b.length + 1) 0 a.length 0 b.length : ℚ) /
      ((a.length : ℚ) + (b.length : ℚ))

/-!
`quiz_evaluator.py`: `QuizEvaluator`.

A question dictionary is modelled by the fields the evaluator reads
(`type`, `question_id`, `points`, `correct_answer`, `sample_answer`,
`explanation`); fields that are merely echoed into the result dictionary
(`question`, raw echoes of the answers) are omitted.  `fill_in_blank` and
`short_answer` call `.strip()` on the stored answer, which raises
`AttributeError` on a non-string value; those two graders therefore return
`Except`, and `_evaluate_single_question`'s `try/except` maps the error to
`_generate_question_error_result`.
-/

/-- The `self.similarity_threshold` value from `QuizEvaluator.__init__`. -/
def similarity_threshold : ℚ := 0.7

/-- The fields of a question dictionary read by the evaluator. -/
structure QuestionD where
  qtype : Option (List Char)
  question_id : Option (List Char)
  points : Option Nat
  correct_answer : Option PyVal
  sample_answer : Option PyVal
  explanation : Option (List Char)
deriving DecidableEq, Repr

/-- The fields of a per-question result dictionary that some grader
produces (fields a given grader does not set are `none`). -/
structure QResult where
  question_id : Option (List Char)
  question_type : List Char
  is_correct : Bool
  points_earned : Int
  max_points : Nat
  similarity_score : Option ℚ
  error : Option (List Char)
  feedback : List Char
deriving DecidableEq, Repr

instance {ε α : Type} [DecidableEq ε] [DecidableEq α] :
    DecidableEq (Except ε α) := fun x y =>
  match x, y with
  | .ok a, .ok b =>
    if h : a = b then .isTrue (by rw [h]) else .isFalse (by simp [h])
  | .error a, .error b =>
    if h : a = b then .isTrue (by rw [h]) else .isFalse (by simp [h])
  | .ok _, .error _ => .isFalse (by simp)
  | .error _, .ok _ => .isFalse (by simp)

/-- The cleaned submission: `str(user_answer).strip().lower() if user_answer else ""`. -/
def userClean (ua : PyVal) : List Char :=
  if pyTruthy ua then pyLower (pyStrip (pyStr ua)) else []

/-- Model of `QuizEvaluator._extract_key_terms`. -/
def extractKeyTerms (text : List Char) : List (List Char) :=
  let common_words : List (List Char) :=
    ["the", "a", "an", "and", "or", "but", "in", "on", "at", "to", "for",
     "of", "with", "by", "is", "are", "was", "were", "be", "been", "have",
     "has", "had", "do", "does", "did", "will", "would", "could",
     "should"].map String.toList
  let words := tokenize (pyLower text)
  (words.filter (fun w => !(common_words.contains w) && decide (2 < w.length))).eraseDups

/-- Model of `QuizEvaluator._generate_feedback`. -/
def genFeedback (q : QuestionD) (is_correct : Bool) : List Char :=
  if is_correct then "Excellent! Your answer is correct.".toList
  else "Not quite right. ".toList ++
    q.explanation.getD "Please review the material and try again.".toList

/-- Model of `QuizEvaluator._evaluate_multiple_choice`. -/
def evalMultipleChoice (q : QuestionD) (ua : PyVal) (maxPts : Nat) : QResult :=
  let correct := q.correct_answer.getD (.int 0)
  let is_correct := pyEq ua correct
  { question_id := q.question_id
    question_type := "multiple_choice".toList
    is_correct := is_correct
    points_earned := if is_correct then (maxPts : Int) else 0
    max_points := maxPts
    similarity_score := none
    error := none
    feedback := genFeedback q is_correct }

/-- Model of `QuizEvaluator._evaluate_true_false`. -/
def evalTrueFalse (q : QuestionD) (ua : PyVal) (maxPts : Nat) : QResult :=
  let correct := q.correct_answer.getD (.bool true)
  let is_correct := pyEq ua correct
  { question_id := q.question_id
    question_type := "true_false".toList
    is_correct := is_correct
    points_earned := if is_correct then (maxPts : Int) else 0
    max_points := maxPts
    similarity_score := none
    error := none
    feedback := genFeedback q is_correct }

/-- Model of `QuizEvaluator._evaluate_fill_in_blank`; `.error` models the
`AttributeError` raised by `.strip()` on a non-string stored answer. -/
def evalFillInBlank (q : QuestionD) (ua : PyVal) (maxPts : Nat) :
    Except (List Char) QResult :=
  match q.correct_answer.getD (.str []) with
  | .str ca =>
    let correct_answer := pyLower (pyStrip ca)
    let user_answer_clean := userClean ua
    let is_exact_match := user_answer_clean = correct_answer
    let similarity := textSimilarity user_answer_clean correct_answer
    let is_similar := similarity_threshold ≤ similarity
    let is_correct := decide is_exact_match || decide is_similar
    let points_earned : ℚ :=
      if is_exact_match then (maxPts : ℚ)
      else if is_similar then (maxPts : ℚ) * 0.8 else 0
    .ok { question_id := q.question_id
          question_type := "fill_in_blank".toList
          is_correct := is_correct
          points_earned := pyTrunc points_earned
          max_points := maxPts
          similarity_score := some (pyRound2 similarity)
          error := none
          feedback := genFeedback q is_correct }
  | _ => .error "AttributeError".toList

/-- Model of `QuizEvaluator._evaluate_short_answer`; `.error` as in
`evalFillInBlank`. -/
def evalShortAnswer (q : QuestionD) (ua : PyVal) (maxPts : Nat) :
    Except (List Char) QResult :=
  match q.sample_answer.getD (.str []) with
  | .str sa =>
    let sample_answer := pyLower (pyStrip sa)
    let user_answer_clean := userClean ua
    if user_answer_clean = [] then
      .ok { question_id := q.question_id
            question_type := "short_answer".toList
            is_correct := false
            points_earned := 0
            max_points := maxPts
            similarity_score := some (pyRound2 0)
            error := none
            feedback := genFeedback q false }
    else
      let similarity := textSimilarity user_answer_clean sample_answer
      let key_terms := extractKeyTerms sample_answer
      let term_matches := (key_terms.filter (fun t => isSub t user_answer_clean)).length
      let term_score : ℚ :=
        if key_terms = [] then 0 else (term_matches : ℚ) / (key_terms.length : ℚ)
      let combined_score := similarity * 0.6 + term_score * 0.4
      let is_correct := decide ((1/2 : ℚ) ≤ combined_score)
      .ok { question_id := q.question_id
            question_type := "short_answer".toList
            is_correct := is_correct
            points_earned := pyTrunc ((maxPts : ℚ) * combined_score)
            max_points := maxPts
            similarity_score := some (pyRound2 similarity)
            error := none
            feedback := genFeedback q is_correct }
  | _ => .error "AttributeError".toList

/-- Model of `QuizEvaluator._generate_question_error_result`. -/
def questionErrorResult (question_id : List Char) (error_msg : List Char)
    (maxPts : Nat) : QResult :=
  { question_id := some question_id
    question_type := "error".toList
    is_correct := false
    points_earned := 0
    max_points := maxPts
    similarity_score := none
    error := some error_msg
    feedback := "There was an error evaluating this question.".toList }

/-- Model of `QuizEvaluator._evaluate_single_question` (the `except` branch catches
the `AttributeError` of the fill-in-blank / short-answer graders). -/
def evalSingleQuestion (q : QuestionD) (ua : PyVal) : QResult :=
  let question_type := q.qtype.getD "multiple_choice".toList
  let question_id := q.question_id.getD "unknown".toList
  let maxPts := q.points.getD 10
  if question_type = "multiple_choice".toList then evalMultipleChoice q ua maxPts
  else if question_type = "true_false".toList then evalTrueFalse q ua maxPts
  else if question_type = "fill_in_blank".toList then
    match evalFillInBlank q ua maxPts with
    | .ok r => r
    | .error e => questionErrorResult (q.question_id.getD "unknown".toList) e 10
  else if question_type = "short_answer".toList then
    match evalShortAnswer q ua maxPts with
    | .ok r => r
    | .error e => questionErrorResult (q.question_id.getD "unknown".toList) e 10
  else questionErrorResult question_id "Unknown question type".toList maxPts

/-- Decimal digit character. -/
def digitChar (n : Nat) : Char :=
  Char.ofNat (48 + n)

/-- Structural helper for `natToChars` (the fuel passed by `natToChars`
always suffices, since the argument shrinks by a factor of ten). -/
def natToCharsAux : Nat → Nat → List Char
  | 0, _ => []
  | fuel + 1, n =>
    if n < 10 then [digitChar n]
    else natToCharsAux fuel (n / 10) ++ [digitChar (n % 10)]

/-- Decimal rendering of a natural number (Python `str(n)` for `n : Nat`). -/
def natToChars (n : Nat) : List Char :=
  natToCharsAux (n + 1) n

/-- The quiz-level fields read by `evaluate_quiz_submission`: the question
list and the optional `scoring.total_points` / `scoring.passing_score`. -/
structure QuizD where
  questions : List QuestionD
  scoring_total_points : Option Int
  scoring_passing_score : Option ℚ
deriving DecidableEq, Repr

/-- The `score_summary` part of the evaluation result. -/
structure ScoreSummary where
  total_questions : Nat
  correct_answers : Nat
  incorrect_answers : Nat
  total_points : Int
  max_points : Int
  percentage_score : ℚ
  passed : Bool
  grade : List Char
deriving DecidableEq, Repr

/-- Model of `QuizEvaluator._calculate_grade`. -/
def calculateGrade (percentage : ℚ) : List Char :=
  if 90 ≤ percentage then "A".toList
  else if 80 ≤ percentage then "B".toList
  else if 70 ≤ percentage then "C".toList
  else if 60 ≤ percentage then "D".toList
  else "F".toList

/-- Model of `QuizEvaluator.evaluate_quiz_submission`, restricted to the
`score_summary` and `detailed_results` parts of its output (the envelope
fields — `evaluation_id`, timestamps, performance analysis — are not
covered by any claim).  `user_answers` is the submitted answers
dictionary, modelled as an association list. -/
def evaluateQuizSubmission (quiz : QuizD)
    (user_answers : List (List Char × PyVal)) : ScoreSummary × List QResult :=
  let questions := quiz.questions
  let total_questions := questions.length
  let max_points : Int := quiz.scoring_total_points.getD (total_questions * 10)
  let detailed_results := questions.enum.map (fun p =>
    let question_id := p.2.question_id.getD ("q_".toList ++ natToChars (p.1 + 1))
    evalSingleQuestion p.2 ((user_answers.lookup question_id).getD .none))
  let correct_answers := (detailed_results.filter (fun r => r.is_correct)).length
  let total_points : Int := (detailed_results.map (fun r => r.points_earned)).sum
  let percentage_score : ℚ :=
    if 0 < max_points then ((total_points : ℚ) / (max_points : ℚ)) * 100 else 0
  let passing_score : ℚ := quiz.scoring_passing_score.getD ((max_points : ℚ) * 0.6)
  ({ total_questions := total_questions
     correct_answers := correct_answers
     incorrect_answers := total_questions - correct_answers
     total_points := total_points
     max_points := max_points
     percentage_score := pyRound2 percentage_score
     passed := decide (passing_score ≤ (total_points : ℚ))
     grade := calculateGrade percentage_score },
   detailed_results)

/-!
`quiz_generator.py`: `QuizGenerator`.

`random.choice(l)` returns `l[k]` for some `k < len(l)` and raises
`IndexError` on an empty list; each call site is modelled by an arbitrary
oracle index `idx`, `pick idx l` returning `l[idx % len(l)]` and `none`
exactly on the empty list, so that theorems quantified over the oracle
cover every possible random outcome.  `datetime.now()` is modelled by a
`now` string parameter.  Python `set` iteration order is unspecified;
`list(set(...))` is determinized as `List.eraseDups` (first occurrences),
which no claim distinguishes.
-/

/-- Model of `random.choice`: some element of `l` when `l` is non-empty, `none`
(an `IndexError`) when `l` is empty. -/
def pick (idx : Nat) (l : List α) : Option α :=
  l.get? (idx % l.length)

/-- The oracle for the `random.choice` calls made while generating one
quiz, indexed by the question slot. -/
structure Rng where
  typeAt : Nat → Nat
  paraAt : Nat → Nat
  sentAt : Nat → Nat
  conceptAt : Nat → Nat
  boolAt : Nat → Nat

/-- A question dictionary produced by one of the four `_generate_*`
question builders (before `question_id` and `points` are attached). -/
structure GenQBase where
  qtype : List Char
  question : List Char
  options : Option (List (List Char))
  correct_answer : Option PyVal
  sample_answer : Option (List Char)
  explanation : List Char
deriving DecidableEq, Repr

/-- A finished generated question (with `question_id` and `points`). -/
structure GenQuestion where
  question_id : List Char
  qtype : List Char
  question : List Char
  options : Option (List (List Char))
  correct_answer : Option PyVal
  sample_answer : Option (List Char)
  explanation : List Char
  points : Nat
deriving DecidableEq, Repr

/-- A generated quiz document (fields of the dictionaries built by
`generate_quiz_from_content` and `_generate_fallback_quiz`). -/
structure GenQuiz where
  quiz_id : List Char
  subject : List Char
  topic : List Char
  difficulty : List Char
  total_questions : Nat
  estimated_time : Nat
  questions : List GenQuestion
  scoring_total_points : Nat
  scoring_passing_score : Nat
  scoring_points_per_question : Nat
  content_length : Option Nat
  key_concepts_count : Option Nat
  question_types_used : Option (List (List Char))
  fallback_mode : Option Bool
deriving DecidableEq, Repr

/-- Splitter for `re.split(r'[.!?]+', s)`: a run of sentence punctuation
ends the current piece. -/
def splitPuncAux : List Char → List Char → List (List Char)
  | [], acc => [acc.reverse]
  | c :: rest, acc =>
    if c == '.' || c == '!' || c == '?' then
      if (match rest with
          | c2 :: _ => c2 == '.' || c2 == '!' || c2 == '?'
          | [] => false) then
        splitPuncAux rest acc
      else acc.reverse :: splitPuncAux rest []
    else splitPuncAux rest (c :: acc)

/-- Model of `re.split(r'[.!?]+', s)`. -/
def reSplitPunc (s : List Char) : List (List Char) :=
  splitPuncAux s []

/-- Splitter for Python `s.split('\n\n')` (non-overlapping, left to
right). -/
def splitNNAux : List Char → List Char → List (List Char)
  | [], acc => [acc.reverse]
  | '\n' :: '\n' :: rest, acc => acc.reverse :: splitNNAux rest []
  | c :: rest, acc => splitNNAux rest (c :: acc)

/-- Python `s.split('\n\n')`. -/
def splitNN (s : List Char) : List (List Char) :=
  splitNNAux s []

/-- Model of `re.findall(r'\b[A-Z][a-z]+\b', s)`: with both word boundaries
required, the matches are exactly the maximal word-character runs formed
of one upper-case letter followed by lower-case letters. -/
def capsWords (s : List Char) : List (List Char) :=
  (tokenize s).filter (fun r =>
    match r with
    | c :: rest => c.isUpper && !rest.isEmpty && rest.all Char.isLower
    | [] => false)

/-- Scanner for `re.findall(r'"([^"]*)"', s)`: the captured texts of the
non-overlapping quote pairs, left to right. -/
def quotedAux : Nat → List Char → List (List Char)
  | 0, _ => []
  | fuel + 1, s =>
    match s.dropWhile (fun c => c != '"') with
    | [] => []
    | _ :: rest =>
      let inner := rest.takeWhile (fun c => c != '"')
      match rest.dropWhile (fun c => c != '"') with
      | [] => []
      | _ :: rest2 => inner :: quotedAux fuel rest2

/-- Model of `re.findall(r'"([^"]*)"', s)`. -/
def quotedTerms (s : List Char) : List (List Char) :=
  quotedAux s.length s

/-- Scanner producing the maximal word-character runs of `s`, each paired
with the gap (maximal run of non-word characters) that follows it. -/
def wgAux : Nat → List Char → List (List Char × List Char)
  | 0, _ => []
  | fuel + 1, s =>
    match s.dropWhile (fun c => !(isWordChar c)) with
    | [] => []
    | c :: rest =>
      let w := c :: rest.takeWhile isWordChar
      let after := rest.dropWhile isWordChar
      (w, after.takeWhile (fun c2 => !(isWordChar c2))) ::
        wgAux fuel (after.dropWhile (fun c2 => !(isWordChar c2)))

/-- The word/gap decomposition of a string. -/
def wordGapPairs (s : List Char) : List (List Char × List Char) :=
  wgAux s.length s

/-- A gap consumable by one regex `\s+`: non-empty, all whitespace. -/
def pureWs (g : List Char) : Bool :=
  !g.isEmpty && g.all isPySpace

/-- A gap whose first character satisfies `\s` (so `\s+` can start). -/
def headWs (g : List Char) : Bool :=
  match g with
  | c :: _ => isPySpace c
  | [] => false

/-- One of the literal alternatives `is` / `are` / `means`. -/
def isDefKeyword (w : List Char) : Bool :=
  w == "is".toList || w == "are".toList || w == "means".toList

/-- Match `\b\w+(?:\s+\w+){k}(?:\s+is\s+|\s+are\s+|\s+means\s+)` at the
head of a word/gap list: returns the first matched word and the pairs
after the keyword. -/
def defAt : Nat → List (List Char × List Char) →
    Option (List Char × List (List Char × List Char))
  | 0, (w0, g0) :: (w1, g1) :: rest =>
    if pureWs g0 && isDefKeyword w1 && headWs g1 then some (w0, rest) else none
  | k + 1, (w0, g0) :: rest =>
    if pureWs g0 then (defAt k rest).map (fun r => (w0, r.2)) else none
  | _, _ => none

/-- Left-to-right non-overlapping scan of the definition pattern, the
`{0,2}` quantifier tried greedily (2, then 1, then 0). -/
def scanDefs : Nat → List (List Char × List Char) → List (List Char)
  | 0, _ => []
  | _ + 1, [] => []
  | fuel + 1, p :: rest =>
    match defAt 2 (p :: rest) <|> defAt 1 (p :: rest) <|> defAt 0 (p :: rest) with
    | some (w, rest2) => w :: scanDefs fuel rest2
    | none => scanDefs fuel rest

/-- Model of `[d.split()[0] for d in re.findall(r'\b\w+(?:\s+\w+){0,2}(?:\s+is\s+|\s+are\s+|\s+means\s+)', s)]`. -/
def defnFirstWords (s : List Char) : List (List Char) :=
  let ps := wordGapPairs s
  scanDefs ps.length ps

/-- Model of `QuizGenerator._extract_key_concepts` (its `try` body cannot raise in
this model, so the `except → []` branch is not represented). -/
def extractKeyConcepts (content : List Char) : List (List Char) :=
  let sentences := reSplitPunc content
  let key_concepts := sentences.flatMap
    (fun s => capsWords s ++ quotedTerms s ++ defnFirstWords s)
  (((key_concepts.map pyStrip).filter (fun c => decide (2 < c.length))).eraseDups).take 20

/-- The paragraphs passed to the question builders:
`[p.strip() for p in content.split('\n\n') if p.strip()]`. -/
def contentParagraphs (content : List Char) : List (List Char) :=
  (splitNN content).filterMap (fun p =>
    let t := pyStrip p
    if t.isEmpty then none else some t)

/-- The paragraphs eligible for `random.choice` in
`_generate_multiple_choice`: `[p for p in paragraphs if len(p) > 100]`. -/
def mcCandidates (paragraphs : List (List Char)) : List (List Char) :=
  paragraphs.filter (fun p => decide (100 < p.length))

/-- The sentences eligible as `fact_sentence`:
`[s for s in sentences if len(s.strip()) > 20]`. -/
def mcSentences (p : List Char) : List (List Char) :=
  (reSplitPunc p).filter (fun s => decide (20 < (pyStrip s).length))

/-- Whether the two `random.choice` calls at the head of
`_generate_multiple_choice` succeed for the given oracle index. -/
def mcSelectionOk (paraIdx : Nat) (paragraphs : List (List Char)) : Bool :=
  match pick paraIdx (mcCandidates paragraphs) with
  | some p => !(mcSentences p).isEmpty
  | none => false

/-- Model of `QuizGenerator._generate_multiple_choice`: `none` models the `except`
branch (an `IndexError` from `random.choice` on an empty candidate
list). -/
def generateMultipleChoice (paraIdx sentIdx conceptIdx : Nat)
    (paragraphs concepts : List (List Char))
    (subject topic _difficulty : List Char) : Option GenQBase :=
  match pick paraIdx (mcCandidates paragraphs) with
  | none => none
  | some selected_paragraph =>
    match pick sentIdx (mcSentences selected_paragraph) with
    | none => none
    | some _fact_sentence =>
      match pick conceptIdx concepts with
      | some concept =>
        some { qtype := "multiple_choice".toList
               question := "What is the significance of ".toList ++ concept ++
                 " in ".toList ++ topic ++ "?".toList
               options := some
                 [concept ++ " is fundamental to understanding ".toList ++ topic,
                  concept ++ " is rarely used in ".toList ++ topic,
                  concept ++ " contradicts the principles of ".toList ++ topic,
                  concept ++ " is only theoretical in ".toList ++ topic]
               correct_answer := some (.int 0)
               sample_answer := none
               explanation := "This concept is central to understanding ".toList ++
                 topic ++ " in ".toList ++ subject ++ ".".toList }
      | none =>
        some { qtype := "multiple_choice".toList
               question := "Which statement best describes ".toList ++ topic ++
                 "?".toList
               options := some
                 [topic ++ " is an important concept in ".toList ++ subject,
                  topic ++ " is outdated in modern ".toList ++ subject,
                  topic ++ " is only for advanced students".toList,
                  topic ++ " has no practical applications".toList]
               correct_answer := some (.int 0)
               sample_answer := none
               explanation := "This concept is central to understanding ".toList ++
                 topic ++ " in ".toList ++ subject ++ ".".toList }

/-- Model of `QuizGenerator._generate_true_false` (its `try` body cannot raise:
both `random.choice` calls are on non-empty lists). -/
def generateTrueFalse (conceptIdx boolIdx : Nat)
    (_paragraphs concepts : List (List Char))
    (subject topic : List Char) : Option GenQBase :=
  match pick conceptIdx concepts with
  | some concept =>
    let is_true := boolIdx % 2 == 0
    if is_true then
      some { qtype := "true_false".toList
             question := concept ++ " is an important element in ".toList ++ topic
             options := none
             correct_answer := some (.bool true)
             sample_answer := none
             explanation := "Yes, ".toList ++ concept ++
               " plays a significant role in understanding ".toList ++ topic ++
               ".".toList }
    else
      some { qtype := "true_false".toList
             question := concept ++ " is completely unrelated to ".toList ++ topic
             options := none
             correct_answer := some (.bool false)
             sample_answer := none
             explanation := "No, ".toList ++ concept ++
               " is actually relevant to ".toList ++ topic ++ " in ".toList ++
               subject ++ ".".toList }
  | none =>
    some { qtype := "true_false".toList
           question := "Understanding ".toList ++ topic ++
             " is beneficial for students of ".toList ++ subject
           options := none
           correct_answer := some (.bool true)
           sample_answer := none
           explanation := "True, ".toList ++ topic ++
             " provides foundational knowledge in ".toList ++ subject ++
             ".".toList }

/-- Model of `QuizGenerator._generate_fill_in_blank` (its `try` body cannot
raise). -/
def generateFillInBlank (conceptIdx : Nat)
    (_paragraphs concepts : List (List Char))
    (subject topic : List Char) : Option GenQBase :=
  match pick conceptIdx concepts with
  | some concept =>
    some { qtype := "fill_in_blank".toList
           question := "The concept of _____ is fundamental to understanding ".toList ++
             topic ++ " in ".toList ++ subject ++ ".".toList
           options := none
           correct_answer := some (.str concept)
           sample_answer := none
           explanation := "The answer is '".toList ++ concept ++
             "' as it is a key concept in this topic.".toList }
  | none =>
    some { qtype := "fill_in_blank".toList
           question := "_____ is the main subject area that encompasses ".toList ++
             topic ++ ".".toList
           options := none
           correct_answer := some (.str subject)
           sample_answer := none
           explanation := "The answer is '".toList ++ subject ++ "' as ".toList ++
             topic ++ " is part of this subject.".toList }

/-- Model of `QuizGenerator._generate_short_answer` (its `try` body cannot
raise). -/
def generateShortAnswer (_paragraphs _concepts : List (List Char))
    (subject topic : List Char) : Option GenQBase :=
  some { qtype := "short_answer".toList
         question := "Explain the importance of ".toList ++ topic ++
           " in ".toList ++ subject ++ ".".toList
         options := none
         correct_answer := none
         sample_answer := some (topic ++ " is important in ".toList ++ subject ++
           " because it provides foundational understanding and practical applications.".toList)
         explanation := "This question tests understanding of the topic's significance and applications.".toList }

/-- Model of `QuizGenerator._generate_basic_questions`. -/
def generateBasicQuestions (subject topic : List Char) (num_questions : Nat) :
    List GenQuestion :=
  (List.range num_questions).map (fun i =>
    { question_id := "q_".toList ++ natToChars (i + 1)
      qtype := "multiple_choice".toList
      question := "What is the main focus of ".toList ++ topic ++ " in ".toList ++
        subject ++ "?".toList
      options := some
        ["Understanding fundamental concepts of ".toList ++ topic,
         "Memorizing facts about ".toList ++ topic,
         "Ignoring ".toList ++ topic ++ " completely".toList,
         "Only theoretical study of ".toList ++ topic]
      correct_answer := some (.int 0)
      sample_answer := none
      explanation := "The main focus is understanding the fundamental concepts of ".toList ++
        topic ++ ".".toList
      points := 10 })

/-- The body of one loop iteration of `_generate_questions`: choose a
question type and dispatch to the matching builder. -/
def generateSlot (rng : Rng) (i : Nat) (paragraphs concepts : List (List Char))
    (subject topic difficulty : List Char) (question_types : List (List Char)) :
    Option GenQBase :=
  (pick (rng.typeAt i) question_types).bind (fun question_type =>
    if question_type = "multiple_choice".toList then
      generateMultipleChoice (rng.paraAt i) (rng.sentAt i) (rng.conceptAt i)
        paragraphs concepts subject topic difficulty
    else if question_type = "true_false".toList then
      generateTrueFalse (rng.conceptAt i) (rng.boolAt i) paragraphs concepts
        subject topic
    else if question_type = "fill_in_blank".toList then
      generateFillInBlank (rng.conceptAt i) paragraphs concepts subject topic
    else generateShortAnswer paragraphs concepts subject topic)

/-- Model of `QuizGenerator._generate_questions`: on an empty `question_types`,
`random.choice` raises and the `except` branch returns the basic
questions; otherwise each slot producing a question gets `question_id`
`q_{i+1}` and `points` 10, slots producing `None` are skipped. -/
def generateQuestions (rng : Rng) (content : List Char)
    (key_concepts : List (List Char)) (subject topic : List Char)
    (num_questions : Nat) (difficulty : List Char)
    (question_types : List (List Char)) : List GenQuestion :=
  if question_types.isEmpty then generateBasicQuestions subject topic num_questions
  else
    let paragraphs := contentParagraphs content
    (List.range num_questions).filterMap (fun i =>
      (generateSlot rng i paragraphs key_concepts subject topic difficulty
        question_types).map (fun b =>
          { question_id := "q_".toList ++ natToChars (i + 1)
            qtype := b.qtype
            question := b.question
            options := b.options
            correct_answer := b.correct_answer
            sample_answer := b.sample_answer
            explanation := b.explanation
            points := 10 }))

/-- Model of `QuizGenerator._generate_fallback_quiz`. -/
def generateFallbackQuiz (now subject topic : List Char)
    (num_questions : Nat) : GenQuiz :=
  { quiz_id := "fallback_quiz_".toList ++ now
    subject := subject
    topic := topic
    difficulty := "medium".toList
    total_questions := num_questions
    estimated_time := num_questions * 2
    questions := generateBasicQuestions subject topic num_questions
    scoring_total_points := num_questions * 10
    scoring_passing_score := num_questions * 6
    scoring_points_per_question := 10
    content_length := none
    key_concepts_count := none
    question_types_used := none
    fallback_mode := some true }

/-- Model of `QuizGenerator.generate_quiz_from_content`; `raised` records whether
the `try` body raised, in which case the `except` branch returns the
fallback quiz. -/
def generateQuizFromContent (raised : Bool) (now : List Char) (rng : Rng)
    (lesson_content subject topic : List Char) (num_questions : Nat)
    (difficulty : List Char) (question_types : Option (List (List Char))) :
    GenQuiz :=
  if raised then generateFallbackQuiz now subject topic num_questions
  else
    let key_concepts := extractKeyConcepts lesson_content
    let questions := generateQuestions rng lesson_content key_concepts subject
      topic num_questions difficulty
      (question_types.getD ["multiple_choice".toList, "true_false".toList])
    { quiz_id := "quiz_".toList ++ now
      subject := subject
      topic := topic
      difficulty := difficulty
      total_questions := questions.length
      estimated_time := questions.length * 2
      questions := questions
      scoring_total_points := questions.length * 10
      scoring_passing_score := questions.length * 6
      scoring_points_per_question := 10
      content_length := some lesson_content.length
      key_concepts_count := some key_concepts.length
      question_types_used := some ((questions.map (fun q => q.qtype)).eraseDups)
      fallback_mode := none }

/-!
Helper lemmas.
-/

theorem matchLen_le_left (x : List Char) : ∀ y, matchLen x y ≤ x.length := by
  induction x with
  | nil => intro y; cases y <;> simp [matchLen]
  | cons a xs ih =>
    intro y
    cases y with
    | nil => simp [matchLen]
    | cons b ys =>
      by_cases h : a = b
      · simpa [matchLen, h] using ih ys
      · simp [matchLen, h]

theorem matchLen_le_right (x : List Char) : ∀ y, matchLen x y ≤ y.length := by
  induction x with
  | nil => intro y; cases y <;> simp [matchLen]
  | cons a xs ih =>
    intro y
    cases y with
    | nil => simp [matchLen]
    | cons b ys =>
      by_cases h : a = b
      · simpa [matchLen, h] using ih ys
      · simp [matchLen, h]

theorem matchLen_self (x : List Char) : matchLen x x = x.length := by
  induction x with
  | nil => rfl
  | cons a xs ih => simp [matchLen, ih]

theorem kAt_le_a (a b : List Char) (ahi bhi i j : Nat) :
    kAt a b ahi bhi i j ≤ ahi - i := by
  refine le_trans (matchLen_le_left _ _) ?_
  simp [List.length_take]

theorem kAt_le_b (a b : List Char) (ahi bhi i j : Nat) :
    kAt a b ahi bhi i j ≤ bhi - j := by
  refine le_trans (matchLen_le_right _ _) ?_
  simp [List.length_take]

theorem mem_pairList {alo ahi blo bhi : Nat} {p : Nat × Nat}
    (h : p ∈ pairList alo ahi blo bhi) :
    alo ≤ p.1 ∧ p.1 < ahi ∧ blo ≤ p.2 ∧ p.2 < bhi := by
  simp only [pairList, List.mem_flatMap, List.mem_map] at h
  obtain ⟨i, hi, j, hj, hp⟩ := h
  rw [List.mem_range'_1] at hi hj
  subst hp
  omega

theorem foldl_bestStep_stable (a b : List Char) (ahi bhi : Nat)
    (l : List (Nat × Nat)) (best : Nat × Nat × Nat)
    (h : ∀ p ∈ l, kAt a b ahi bhi p.1 p.2 ≤ best.2.2) :
    l.foldl (bestStep a b ahi bhi) best = best := by
  induction l with
  | nil => rfl
  | cons p t ih =>
    have hp := h p (List.mem_cons_self p t)
    have hstep : bestStep a b ahi bhi best p = best := by
      simp [bestStep, Nat.not_lt.mpr hp]
    rw [List.foldl_cons, hstep]
    exact ih (fun q hq => h q (List.mem_cons_of_mem _ hq))

theorem foldl_bestStep_inv (a b : List Char) (ahi bhi : Nat)
    (P : Nat × Nat × Nat → Prop) (l : List (Nat × Nat)) :
    ∀ best, P best → (∀ p ∈ l, P (p.1, p.2, kAt a b ahi bhi p.1 p.2)) →
      P (l.foldl (bestStep a b ahi bhi) best) := by
  induction l with
  | nil => intro best hb _; exact hb
  | cons p t ih =>
    intro best hb hl
    rw [List.foldl_cons]
    refine ih _ ?_ (fun q hq => hl q (List.mem_cons_of_mem _ hq))
    by_cases h : best.2.2 < kAt a b ahi bhi p.1 p.2
    · simpa [bestStep, h] using hl p (List.mem_cons_self p t)
    · simpa [bestStep, h] using hb

theorem foldl_bestStep_k_mono (a b : List Char) (ahi bhi : Nat)
    (l : List (Nat × Nat)) : ∀ best : Nat × Nat × Nat,
    best.2.2 ≤ (l.foldl (bestStep a b ahi bhi) best).2.2 := by
  induction l with
  | nil => intro best; exact le_refl _
  | cons p t ih =>
    intro best
    rw [List.foldl_cons]
    refine le_trans ?_ (ih _)
    by_cases h : best.2.2 < kAt a b ahi bhi p.1 p.2
    · simp [bestStep, h]; omega
    · simp [bestStep, h]

theorem foldl_bestStep_k_ge (a b : List Char) (ahi bhi : Nat)
    (l : List (Nat × Nat)) : ∀ (best : Nat × Nat × Nat), ∀ p ∈ l,
    kAt a b ahi bhi p.1 p.2 ≤ (l.foldl (bestStep a b ahi bhi) best).2.2 := by
  induction l with
  | nil => intro best p hp; cases hp
  | cons q t ih =>
    intro best p hp
    rw [List.foldl_cons]
    rcases List.mem_cons.mp hp with h | h
    · subst h
      refine le_trans ?_ (foldl_bestStep_k_mono a b ahi bhi t _)
      by_cases hlt : best.2.2 < kAt a b ahi bhi p.1 p.2
      · simp [bestStep, hlt]
      · simp [bestStep, hlt]; omega
    · exact ih _ p h

theorem findBest_bounds (a b : List Char) (alo ahi blo bhi : Nat)
    (h : (findBest a b alo ahi blo bhi).2.2 ≠ 0) :
    alo ≤ (findBest a b alo ahi blo bhi).1 ∧
      (findBest a b alo ahi blo bhi).1 + (findBest a b alo ahi blo bhi).2.2 ≤ ahi ∧
      blo ≤ (findBest a b alo ahi blo bhi).2.1 ∧
      (findBest a b alo ahi blo bhi).2.1 + (findBest a b alo ahi blo bhi).2.2 ≤ bhi := by
  refine foldl_bestStep_inv a b ahi bhi
    (fun t => t.2.2 ≠ 0 → alo ≤ t.1 ∧ t.1 + t.2.2 ≤ ahi ∧ blo ≤ t.2.1 ∧ t.2.1 + t.2.2 ≤ bhi)
    (pairList alo ahi blo bhi) (alo, blo, 0) (by simp) ?_ h
  intro p hp _
  have hb := mem_pairList hp
  have h1 := kAt_le_a a b ahi bhi p.1 p.2
  have h2 := kAt_le_b a b ahi bhi p.1 p.2
  simp only []
  omega

theorem totalMatch_le_a (a b : List Char) :
    ∀ fuel alo ahi blo bhi, totalMatch a b fuel alo ahi blo bhi ≤ ahi - alo := by
  intro fuel
  induction fuel with
  | zero => intro alo ahi blo bhi; simp [totalMatch]
  | succ n ih =>
    intro alo ahi blo bhi
    by_cases h : (findBest a b alo ahi blo bhi).2.2 = 0
    · simp [totalMatch, h]
    · have hb := findBest_bounds a b alo ahi blo bhi h
      have l1 := ih alo (findBest a b alo ahi blo bhi).1 blo
        (findBest a b alo ahi blo bhi).2.1
      have l2 := ih ((findBest a b alo ahi blo bhi).1 + (findBest a b alo ahi blo bhi).2.2)
        ahi ((findBest a b alo ahi blo bhi).2.1 + (findBest a b alo ahi blo bhi).2.2) bhi
      simp only [totalMatch]
      rw [if_neg h]
      omega

theorem totalMatch_le_b (a b : List Char) :
    ∀ fuel alo ahi blo bhi, totalMatch a b fuel alo ahi blo bhi ≤ bhi - blo := by
  intro fuel
  induction fuel with
  | zero => intro alo ahi blo bhi; simp [totalMatch]
  | succ n ih =>
    intro alo ahi blo bhi
    by_cases h : (findBest a b alo ahi blo bhi).2.2 = 0
    · simp [totalMatch, h]
    · have hb := findBest_bounds a b alo ahi blo bhi h
      have l1 := ih alo (findBest a b alo ahi blo bhi).1 blo
        (findBest a b alo ahi blo bhi).2.1
      have l2 := ih ((findBest a b alo ahi blo bhi).1 + (findBest a b alo ahi blo bhi).2.2)
        ahi ((findBest a b alo ahi blo bhi).2.1 + (findBest a b alo ahi blo bhi).2.2) bhi
      simp only [totalMatch]
      rw [if_neg h]
      omega

theorem totalMatch_of_le (a b : List Char) (fuel alo ahi blo bhi : Nat)
    (h : ahi ≤ alo) : totalMatch a b fuel alo ahi blo bhi = 0 := by
  have := totalMatch_le_a a b fuel alo ahi blo bhi
  omega

theorem zero_zero_mem_pairList {n : Nat} (h : 0 < n) :
    ((0 : Nat), (0 : Nat)) ∈ pairList 0 n 0 n := by
  simp only [pairList, List.mem_flatMap, List.mem_map]
  refine ⟨0, ?_, 0, ?_, rfl⟩ <;> rw [List.mem_range'_1] <;> omega

theorem kAt_self_zero (a : List Char) :
    kAt a a a.length a.length 0 0 = a.length := by
  simp [kAt, List.take_length, matchLen_self]

theorem findBest_self (a : List Char) (h : a ≠ []) :
    findBest a a 0 a.length 0 a.length = (0, 0, a.length) := by
  have hn : 0 < a.length := List.length_pos.mpr h
  have hk : (findBest a a 0 a.length 0 a.length).2.2 = a.length := by
    have hub : (findBest a a 0 a.length 0 a.length).2.2 ≤ a.length := by
      refine foldl_bestStep_inv a a a.length a.length (fun t => t.2.2 ≤ a.length)
        (pairList 0 a.length 0 a.length) (0, 0, 0) (by simp) ?_
      intro p _
      exact le_trans (kAt_le_a a a a.length a.length p.1 p.2) (by omega)
    have hlb := foldl_bestStep_k_ge a a a.length a.length
      (pairList 0 a.length 0 a.length) (0, 0, 0) (0, 0)
      (zero_zero_mem_pairList hn)
    rw [kAt_self_zero] at hlb
    exact le_antisymm hub hlb
  have hne : (findBest a a 0 a.length 0 a.length).2.2 ≠ 0 := by omega
  have hb := findBest_bounds a a 0 a.length 0 a.length hne
  have h1 : (findBest a a 0 a.length 0 a.length).1 = 0 := by omega
  have h2 : (findBest a a 0 a.length 0 a.length).2.1 = 0 := by omega
  exact Prod.ext h1 (Prod.ext h2 hk)

theorem totalMatch_self (a : List Char) (h : a ≠ []) (fuel : Nat) :
    totalMatch a a (fuel + 1) 0 a.length 0 a.length = a.length := by
  have hn : 0 < a.length := List.length_pos.mpr h
  simp only [totalMatch, findBest_self a h]
  rw [if_neg (by omega)]
  rw [totalMatch_of_le a a fuel 0 0 0 0 (le_refl 0),
    totalMatch_of_le a a fuel (0 + a.length) a.length (0 + a.length) a.length (by omega)]
  omega

theorem textSimilarity_self (a : List Char) : textSimilarity a a = 1 := by
  by_cases h : a = []
  · subst h; simp [textSimilarity]
  · have hn : 0 < a.length := List.length_pos.mpr h
    rw [textSimilarity, if_neg (by omega)]
    rw [show a.length + a.length + 1 = (a.length + a.length) + 1 from rfl,
      totalMatch_self a h]
    have hq : (a.length : ℚ) ≠ 0 := by
      exact_mod_cast Nat.pos_iff_ne_zero.mp hn
    field_simp
    ring

theorem textSimilarity_nil_nil : textSimilarity [] [] = 1 := by
  simp [textSimilarity]

theorem textSimilarity_nonneg (a b : List Char) : 0 ≤ textSimilarity a b := by
  rw [textSimilarity]
  split
  · norm_num
  · positivity

theorem textSimilarity_le_one (a b : List Char) : textSimilarity a b ≤ 1 := by
  rw [textSimilarity]
  split
  · norm_num
  · rename_i h
    have h1 := totalMatch_le_a a b (a.length + b.length + 1) 0 a.length 0 b.length
    have h2 := totalMatch_le_b a b (a.length + b.length + 1) 0 a.length 0 b.length
    have hpos : (0 : ℚ) < (a.length : ℚ) + (b.length : ℚ) := by
      have : 0 < a.length + b.length := by omega
      exact_mod_cast this
    rw [div_le_one hpos]
    have hsum : 2 * totalMatch a b (a.length + b.length + 1) 0 a.length 0 b.length ≤
        a.length + b.length := by omega
    exact_mod_cast hsum

theorem ratFloor_eq_floor (q : ℚ) : ratFloor q = Int.floor q := by
  rw [ratFloor, Rat.floor_def]

theorem pyTrunc_eq_floor (q : ℚ) (h : 0 ≤ q) : pyTrunc q = Int.floor q := by
  rw [pyTrunc, Int.tdiv_eq_ediv (Rat.num_nonneg.mpr h) (by positivity), Rat.floor_def]

/-- The decimal value of a digit string (left inverse of `natToChars`). -/
def charsToNat (s : List Char) : Nat :=
  s.foldl (fun acc c => acc * 10 + (c.toNat - 48)) 0

theorem charsToNat_append (xs : List Char) (c : Char) :
    charsToNat (xs ++ [c]) = charsToNat xs * 10 + (c.toNat - 48) := by
  simp [charsToNat, List.foldl_append]

theorem toNat_digitChar (d : Nat) (h : d < 10) : (digitChar d).toNat - 48 = d := by
  interval_cases d <;> decide

theorem charsToNat_natToCharsAux :
    ∀ fuel n, n < fuel → charsToNat (natToCharsAux fuel n) = n := by
  intro fuel
  induction fuel with
  | zero => intro n h; omega
  | succ f ih =>
    intro n h
    by_cases h10 : n < 10
    · simp only [natToCharsAux, if_pos h10, charsToNat, List.foldl_cons,
        List.foldl_nil]
      rw [Nat.zero_mul, Nat.zero_add, toNat_digitChar n h10]
    · rw [natToCharsAux, if_neg h10, charsToNat_append, ih (n / 10) (by omega),
        toNat_digitChar (n % 10) (by omega)]
      omega

theorem charsToNat_natToChars (n : Nat) : charsToNat (natToChars n) = n :=
  charsToNat_natToCharsAux (n + 1) n (by omega)

theorem natToChars_injective : Function.Injective natToChars := by
  intro a b h
  rw [← charsToNat_natToChars a, h, charsToNat_natToChars]

theorem pick_singleton (idx : Nat) (x : α) : pick idx [x] = some x := by
  simp [pick, Nat.mod_one]

theorem pick_isSome {l : List α} (idx : Nat) (h : l ≠ []) :
    (pick idx l).isSome = true := by
  have hl : 0 < l.length := List.length_pos.mpr h
  have hm : idx % l.length < l.length := Nat.mod_lt idx hl
  simp [pick, List.getElem?_eq_getElem hm]

theorem pyStrip_all_space {s : List Char} (h : s.all isPySpace = true) :
    pyStrip s = [] := by
  have h1 : s.dropWhile isPySpace = [] := by
    rw [List.dropWhile_eq_nil_iff]
    intro x hx
    exact List.all_eq_true.mp h x hx
  simp [pyStrip, h1]

theorem filterMap_map_id_eq {α β γ : Type} (g : Nat → Option α)
    (fin : Nat → α → β) (idOf : β → γ) (tag : Nat → γ)
    (h : ∀ i a, idOf (fin i a) = tag i) (l : List Nat) :
    ((l.filterMap (fun i => (g i).map (fin i))).map idOf) =
      (l.filter (fun i => (g i).isSome)).map tag := by
  induction l with
  | nil => rfl
  | cons i t ih =>
    cases hg : g i with
    | none => simp [List.filterMap_cons, hg, List.filter_cons, ih]
    | some a => simp [List.filterMap_cons, hg, List.filter_cons, h, ih]

theorem pyTrunc_natCast (n : Nat) : pyTrunc ((n : Nat) : ℚ) = (n : Int) := by
  simp [pyTrunc, Rat.num_natCast, Rat.den_natCast, Int.tdiv_one]

theorem pyTrunc_zero : pyTrunc 0 = 0 := by decide

theorem pyRound2_zero : pyRound2 0 = 0 := by decide

theorem pyRound2_one : pyRound2 1 = 1 := by decide

/-- The term score exactly as the specification phrases it: the fraction
of key terms of the sample answer occurring as substrings of the
submission, and `0` when there are no key terms. -/
def specTermScore (sampleN submitted : List Char) : ℚ :=
  let key_terms := extractKeyTerms sampleN
  if key_terms = [] then 0
  else ((key_terms.filter (fun t => isSub t submitted)).length : ℚ) /
    (key_terms.length : ℚ)

theorem specTermScore_nonneg (sampleN submitted : List Char) :
    0 ≤ specTermScore sampleN submitted := by
  rw [specTermScore]
  split
  · norm_num
  · positivity

/-!
The claims.
-/

/-- Claim C3, counterexample: the text-similarity ratio used by the
graders is not symmetric; on the pair `"tide"`, `"diet"` the two orders
give `1/4` and `1/2`. -/
theorem claim_C3_cex_ratio_not_symmetric :
    textSimilarity "tide".toList "diet".toList ≠ textSimilarity "diet".toList "tide".toList := by
  decide

/-- Claim C3, amended: the text-similarity ratio satisfies
`ratio(a, a) = 1`, `ratio("", "") = 1` and `0 ≤ ratio(a, b) ≤ 1` for all
strings; symmetry, however, fails in general (see the counterexample). -/
theorem claim_C3_ratio_properties (a b : List Char) :
    textSimilarity a a = 1 ∧ textSimilarity [] [] = 1 ∧
      0 ≤ textSimilarity a b ∧ textSimilarity a b ≤ 1 :=
  ⟨textSimilarity_self a, textSimilarity_nil_nil, textSimilarity_nonneg a b, textSimilarity_le_one a b⟩

/-- Claim C5: a question whose `type` is none of the four known kinds is
graded, for every submitted answer, to the dedicated error result:
`is_correct = false`, `points_earned = 0`, the message
`"Unknown question type"` recorded, and grading does not raise. -/
theorem claim_C5_unknown_type_error (tname : List Char)
    (qid expl : Option (List Char)) (pts : Option Nat) (ca sa : Option PyVal)
    (ua : PyVal)
    (h1 : tname ≠ "multiple_choice".toList) (h2 : tname ≠ "true_false".toList)
    (h3 : tname ≠ "fill_in_blank".toList) (h4 : tname ≠ "short_answer".toList) :
    evalSingleQuestion
      { qtype := some tname
        question_id := qid
        points := pts
        correct_answer := ca
        sample_answer := sa
        explanation := expl } ua =
    { question_id := some (qid.getD "unknown".toList)
      question_type := "error".toList
      is_correct := false
      points_earned := 0
      max_points := pts.getD 10
      similarity_score := none
      error := some "Unknown question type".toList
      feedback := "There was an error evaluating this question.".toList } := by
  unfold evalSingleQuestion
  simp only [Option.getD_some]
  rw [if_neg h1, if_neg h2, if_neg h3, if_neg h4]
  rfl

/-- Witness for claim C5 at the unknown type `"essay"`. -/
theorem claim_C5_witness :
    ("essay".toList ≠ "multiple_choice".toList) ∧
    ("essay".toList ≠ "true_false".toList) ∧
    ("essay".toList ≠ "fill_in_blank".toList) ∧
    ("essay".toList ≠ "short_answer".toList) ∧
    evalSingleQuestion
      { qtype := some "essay".toList
        question_id := none
        points := none
        correct_answer := none
        sample_answer := none
        explanation := none } (.int 0) =
    { question_id := some "unknown".toList
      question_type := "error".toList
      is_correct := false
      points_earned := 0
      max_points := 10
      similarity_score := none
      error := some "Unknown question type".toList
      feedback := "There was an error evaluating this question.".toList } :=
  ⟨by decide, by decide, by decide, by decide,
    claim_C5_unknown_type_error "essay".toList none none none none none (.int 0)
      (by decide) (by decide) (by decide) (by decide)⟩

/-- Claim C6: whenever the question-synthesis pipeline raises,
`generate_quiz` still returns a quiz whose `questions` list has length
exactly `num_questions`, every question of type `multiple_choice`, and
`metadata.fallback_mode = true`. -/
theorem claim_C6_fallback_quiz (now : List Char) (rng : Rng)
    (content subject topic difficulty : List Char) (n : Nat)
    (qtypes : Option (List (List Char))) :
    (generateQuizFromContent true now rng content subject topic n difficulty
        qtypes).questions.length = n ∧
    (∀ q ∈ (generateQuizFromContent true now rng content subject topic n
        difficulty qtypes).questions, q.qtype = "multiple_choice".toList) ∧
    (generateQuizFromContent true now rng content subject topic n difficulty
        qtypes).fallback_mode = some true := by
  refine ⟨?_, ?_, rfl⟩
  · simp [generateQuizFromContent, generateFallbackQuiz, generateBasicQuestions]
  · intro q hq
    simp only [generateQuizFromContent, if_pos, generateFallbackQuiz,
      generateBasicQuestions, List.mem_map, List.mem_range] at hq
    obtain ⟨i, _, rfl⟩ := hq
    rfl

/-- Claim C10: for a `fill_in_blank` question whose canonical answer is
absent or normalizes to the empty string, a missing or whitespace-only
submission is graded correct with full points, the recorded similarity
being `1`. -/
theorem claim_C10_empty_fill_in_blank (q : QuestionD) (ua : PyVal)
    (maxPts : Nat)
    (hca : q.correct_answer = none ∨
      ∃ s, q.correct_answer = some (PyVal.str s) ∧ pyLower (pyStrip s) = [])
    (hua : ua = PyVal.none ∨ ∃ s, ua = PyVal.str s ∧ s.all isPySpace = true) :
    ∃ r, evalFillInBlank q ua maxPts = Except.ok r ∧ r.is_correct = true ∧
      r.points_earned = (maxPts : Int) ∧ r.similarity_score = some 1 := by
  have huser : userClean ua = [] := by
    rcases hua with h | ⟨s, rfl, hs⟩
    · subst h; rfl
    · by_cases hnil : s = []
      · subst hnil; rfl
      · have : pyTruthy (PyVal.str s) = true := by simp [pyTruthy, hnil]
        simp [userClean, this, pyStr, pyStrip_all_space hs, pyLower]
  obtain ⟨s0, hs0, hn0⟩ :
      ∃ s0, q.correct_answer.getD (.str []) = .str s0 ∧ pyLower (pyStrip s0) = [] := by
    rcases hca with h | ⟨s, hs, hn⟩
    · exact ⟨[], by simp [h], rfl⟩
    · exact ⟨s, by simp [hs], hn⟩
  unfold evalFillInBlank
  rw [hs0]
  simp only [hn0, huser]
  refine ⟨_, rfl, ?_, ?_, ?_⟩
  · simp
  · simp only [if_pos rfl]
    exact pyTrunc_natCast maxPts
  · rw [textSimilarity_nil_nil, pyRound2_one]

/-- Witness for claim C10: a `fill_in_blank` question with no stored
`correct_answer` and a missing submission. -/
theorem claim_C10_witness :
    (({ qtype := some "fill_in_blank".toList
        question_id := none
        points := none
        correct_answer := none
        sample_answer := none
        explanation := none } : QuestionD).correct_answer = none ∨
      ∃ s, ({ qtype := some "fill_in_blank".toList
              question_id := none
              points := none
              correct_answer := none
              sample_answer := none
              explanation := none } : QuestionD).correct_answer =
          some (PyVal.str s) ∧ pyLower (pyStrip s) = []) ∧
    (PyVal.none = PyVal.none ∨
      ∃ s, PyVal.none = PyVal.str s ∧ s.all isPySpace = true) ∧
    ∃ r, evalFillInBlank
        { qtype := some "fill_in_blank".toList
          question_id := none
          points := none
          correct_answer := none
          sample_answer := none
          explanation := none } PyVal.none 10 = Except.ok r ∧
      r.is_correct = true ∧ r.points_earned = (10 : Int) ∧
      r.similarity_score = some 1 :=
  ⟨Or.inl rfl, Or.inl rfl,
    claim_C10_empty_fill_in_blank _ PyVal.none 10 (Or.inl rfl) (Or.inl rfl)⟩

/-- Claim C2: for every `fill_in_blank` question, after normalizing both
answers (trim, lowercase): an exact match earns full points; otherwise a
similarity ratio of at least `0.7` is correct with
`floor(max_points * 0.8)` points; otherwise incorrect with `0` points;
the similarity is recorded in the result. -/
theorem claim_C2_fill_in_blank_grading (ca : Option (List Char))
    (qid expl : Option (List Char)) (pts : Option Nat) (sa : Option PyVal)
    (ua : PyVal) (maxPts : Nat) :
    ∃ r, evalFillInBlank
        { qtype := some "fill_in_blank".toList
          question_id := qid
          points := pts
          correct_answer := ca.map PyVal.str
          sample_answer := sa
          explanation := expl } ua maxPts = Except.ok r ∧
      (r.is_correct =
        (if userClean ua = pyLower (pyStrip (ca.getD [])) then true
         else if (0.7 : ℚ) ≤ textSimilarity (userClean ua) (pyLower (pyStrip (ca.getD [])))
           then true else false)) ∧
      (r.points_earned =
        (if userClean ua = pyLower (pyStrip (ca.getD [])) then (maxPts : Int)
         else if (0.7 : ℚ) ≤ textSimilarity (userClean ua) (pyLower (pyStrip (ca.getD [])))
           then Int.floor ((maxPts : ℚ) * 0.8) else 0)) ∧
      (r.similarity_score =
        some (pyRound2 (textSimilarity (userClean ua) (pyLower (pyStrip (ca.getD [])))))) := by
  have hred : ∀ r0, evalFillInBlank
      { qtype := some "fill_in_blank".toList
        question_id := qid
        points := pts
        correct_answer := (ca.map PyVal.str)
        sample_answer := sa
        explanation := expl } ua maxPts = r0 ↔ evalFillInBlank
      { qtype := some "fill_in_blank".toList
        question_id := qid
        points := pts
        correct_answer := some (PyVal.str (ca.getD []))
        sample_answer := sa
        explanation := expl } ua maxPts = r0 := by
    intro r0
    cases ca <;> exact Iff.rfl
  refine ⟨_, (hred _).mpr rfl, ?_, ?_, ?_⟩
  · show (decide (userClean ua = pyLower (pyStrip (ca.getD []))) ||
      decide (similarity_threshold ≤ textSimilarity (userClean ua) (pyLower (pyStrip (ca.getD []))))) = _
    by_cases h1 : userClean ua = pyLower (pyStrip (ca.getD [])) <;>
      by_cases h2 : (0.7 : ℚ) ≤ textSimilarity (userClean ua) (pyLower (pyStrip (ca.getD []))) <;>
      simp [similarity_threshold, h1, h2]
  · show pyTrunc (if userClean ua = pyLower (pyStrip (ca.getD [])) then (maxPts : ℚ)
      else if similarity_threshold ≤ textSimilarity (userClean ua) (pyLower (pyStrip (ca.getD [])))
        then (maxPts : ℚ) * 0.8 else 0) = _
    by_cases h1 : userClean ua = pyLower (pyStrip (ca.getD []))
    · rw [if_pos h1, if_pos h1, pyTrunc_natCast]
    · rw [if_neg h1, if_neg h1]
      by_cases h2 : (0.7 : ℚ) ≤ textSimilarity (userClean ua) (pyLower (pyStrip (ca.getD [])))
      · rw [if_pos (show similarity_threshold ≤ _ from h2), if_pos h2,
          pyTrunc_eq_floor _ (by positivity)]
      · rw [if_neg (show ¬ similarity_threshold ≤ _ from h2), if_neg h2, pyTrunc_zero]
  · rfl

/-- Claim C1: for every `short_answer` question, a submission normalizing
to the empty string is graded incorrect with `0` points and similarity
`0`; a non-empty normalized submission is graded with
`combined = 0.6 * similarity + 0.4 * term_score`, correct iff
`combined ≥ 1/2`, earning `floor(max_points * combined)` points. -/
theorem claim_C1_short_answer_grading (sample : Option (List Char))
    (qid expl : Option (List Char)) (pts : Option Nat) (ca : Option PyVal)
    (ua : PyVal) (maxPts : Nat) :
    ∃ r, evalShortAnswer
        { qtype := some "short_answer".toList
          question_id := qid
          points := pts
          correct_answer := ca
          sample_answer := sample.map PyVal.str
          explanation := expl } ua maxPts = Except.ok r ∧
      (r.is_correct = (if userClean ua = [] then false
        else decide ((1/2 : ℚ) ≤
          0.6 * textSimilarity (userClean ua) (pyLower (pyStrip (sample.getD []))) +
          0.4 * specTermScore (pyLower (pyStrip (sample.getD []))) (userClean ua)))) ∧
      (r.points_earned = (if userClean ua = [] then 0
        else Int.floor ((maxPts : ℚ) *
          (0.6 * textSimilarity (userClean ua) (pyLower (pyStrip (sample.getD []))) +
           0.4 * specTermScore (pyLower (pyStrip (sample.getD []))) (userClean ua))))) ∧
      (r.similarity_score = some (if userClean ua = [] then 0
        else pyRound2 (textSimilarity (userClean ua) (pyLower (pyStrip (sample.getD [])))))) := by
  have hredEq : evalShortAnswer
      { qtype := some "short_answer".toList
        question_id := qid
        points := pts
        correct_answer := ca
        sample_answer := sample.map PyVal.str
        explanation := expl } ua maxPts = evalShortAnswer
      { qtype := some "short_answer".toList
        question_id := qid
        points := pts
        correct_answer := ca
        sample_answer := some (PyVal.str (sample.getD []))
        explanation := expl } ua maxPts := by
    cases sample <;> rfl
  by_cases hu : userClean ua = []
  · refine ⟨_, hredEq.trans (if_pos hu), ?_, ?_, ?_⟩
    · rw [if_pos hu]
    · rw [if_pos hu]
    · rw [if_pos hu]
      show some (pyRound2 0) = some 0
      rw [pyRound2_zero]
  · have hcomb : textSimilarity (userClean ua) (pyLower (pyStrip (sample.getD []))) * 0.6 +
        specTermScore (pyLower (pyStrip (sample.getD []))) (userClean ua) * 0.4 =
        0.6 * textSimilarity (userClean ua) (pyLower (pyStrip (sample.getD []))) +
        0.4 * specTermScore (pyLower (pyStrip (sample.getD []))) (userClean ua) := by
      ring
    refine ⟨_, hredEq.trans (if_neg hu), ?_, ?_, ?_⟩
    · rw [if_neg hu]
      show decide ((1/2 : ℚ) ≤ _) = _
      rw [show (if extractKeyTerms (pyLower (pyStrip (sample.getD []))) = [] then (0 : ℚ)
          else (((extractKeyTerms (pyLower (pyStrip (sample.getD [])))).filter
            (fun t => isSub t (userClean ua))).length : ℚ) /
            ((extractKeyTerms (pyLower (pyStrip (sample.getD [])))).length : ℚ)) =
        specTermScore (pyLower (pyStrip (sample.getD []))) (userClean ua) from rfl]
      rw [hcomb]
    · rw [if_neg hu]
      show pyTrunc _ = _
      rw [show (if extractKeyTerms (pyLower (pyStrip (sample.getD []))) = [] then (0 : ℚ)
          else (((extractKeyTerms (pyLower (pyStrip (sample.getD [])))).filter
            (fun t => isSub t (userClean ua))).length : ℚ) /
            ((extractKeyTerms (pyLower (pyStrip (sample.getD [])))).length : ℚ)) =
        specTermScore (pyLower (pyStrip (sample.getD []))) (userClean ua) from rfl]
      rw [hcomb]
      refine pyTrunc_eq_floor _ ?_
      have h1 := textSimilarity_nonneg (userClean ua) (pyLower (pyStrip (sample.getD [])))
      have h2 := specTermScore_nonneg (pyLower (pyStrip (sample.getD []))) (userClean ua)
      positivity
    · rw [if_neg hu]

/-- A multiple-choice question worth 10 points, for the concrete quizzes
of claim C4. -/
def c4q (cid : String) (ca : PyVal) : QuestionD :=
  { qtype := some "multiple_choice".toList
    question_id := some cid.toList
    points := some 10
    correct_answer := some ca
    sample_answer := none
    explanation := none }

/-- Claim C4's concrete quiz: 5 questions worth 10 each, default
scoring. -/
def c4Quiz : QuizD :=
  { questions :=
      [c4q "q_1" (.int 0), c4q "q_2" (.int 0), c4q "q_3" (.int 0),
       c4q "q_4" (.int 0),
       { qtype := some "true_false".toList
         question_id := some "q_5".toList
         points := some 10
         correct_answer := some (.bool true)
         sample_answer := none
         explanation := none }]
    scoring_total_points := none
    scoring_passing_score := none }

/-- A submission for `c4Quiz` with exactly 3 correct and 2 wrong
answers. -/
def c4Answers : List (List Char × PyVal) :=
  [("q_1".toList, .int 0), ("q_2".toList, .int 0), ("q_3".toList, .int 0),
   ("q_4".toList, .int 2), ("q_5".toList, .bool false)]

/-- A 3-question quiz with default scoring (max 30 points), for the
percentage-rounding counterexample of claim C4. -/
def c4cQuiz : QuizD :=
  { questions := [c4q "q_1" (.int 0), c4q "q_2" (.int 0), c4q "q_3" (.int 0)]
    scoring_total_points := none
    scoring_passing_score := none }

/-- A submission for `c4cQuiz` earning 10 of 30 points. -/
def c4cAnswers : List (List Char × PyVal) :=
  [("q_1".toList, .int 0), ("q_2".toList, .int 1), ("q_3".toList, .int 1)]

/-- Claim C4, counterexample: with 10 of 30 points the stored
`percentage_score` is the rounded `33.33`, not the exact
`100 * total_points / max_points = 100/3`. -/
theorem claim_C4_cex_percentage_rounding :
    (evaluateQuizSubmission c4cQuiz c4cAnswers).1.percentage_score ≠
      100 * ((evaluateQuizSubmission c4cQuiz c4cAnswers).1.total_points : ℚ) /
        ((evaluateQuizSubmission c4cQuiz c4cAnswers).1.max_points : ℚ) := by
  decide

/-- Claim C4, amended: with no scoring policy, `max_points` defaults to
`10 * n`, `passed` compares the points total with the default passing
score `0.6 * max_points`, the stored `percentage_score` is
`100 * total_points / max_points` (`0` when `max_points = 0`) rounded to
two decimals, and the letter grade follows the 90/80/70/60 thresholds on
the unrounded percentage; the concrete 5-question quiz with 3 correct
answers scores 30 points, 60%, passed, grade `"D"`. -/
theorem claim_C4_score_summary (questions : List QuestionD)
    (answers : List (List Char × PyVal)) :
    ((evaluateQuizSubmission ⟨questions, none, none⟩ answers).1.max_points =
      10 * questions.length) ∧
    ((evaluateQuizSubmission ⟨questions, none, none⟩ answers).1.percentage_score =
      pyRound2 (if 0 < (evaluateQuizSubmission ⟨questions, none, none⟩ answers).1.max_points then
        (((evaluateQuizSubmission ⟨questions, none, none⟩ answers).1.total_points : ℚ) /
          ((evaluateQuizSubmission ⟨questions, none, none⟩ answers).1.max_points : ℚ)) * 100
        else 0)) ∧
    ((evaluateQuizSubmission ⟨questions, none, none⟩ answers).1.passed =
      decide ((((evaluateQuizSubmission ⟨questions, none, none⟩ answers).1.max_points : ℚ) * 0.6) ≤
        ((evaluateQuizSubmission ⟨questions, none, none⟩ answers).1.total_points : ℚ))) ∧
    ((evaluateQuizSubmission ⟨questions, none, none⟩ answers).1.grade =
      (if 90 ≤ (if 0 < (evaluateQuizSubmission ⟨questions, none, none⟩ answers).1.max_points then
          (((evaluateQuizSubmission ⟨questions, none, none⟩ answers).1.total_points : ℚ) /
            ((evaluateQuizSubmission ⟨questions, none, none⟩ answers).1.max_points : ℚ)) * 100
          else 0) then "A".toList
        else if 80 ≤ (if 0 < (evaluateQuizSubmission ⟨questions, none, none⟩ answers).1.max_points then
          (((evaluateQuizSubmission ⟨questions, none, none⟩ answers).1.total_points : ℚ) /
            ((evaluateQuizSubmission ⟨questions, none, none⟩ answers).1.max_points : ℚ)) * 100
          else 0) then "B".toList
        else if 70 ≤ (if 0 < (evaluateQuizSubmission ⟨questions, none, none⟩ answers).1.max_points then
          (((evaluateQuizSubmission ⟨questions, none, none⟩ answers).1.total_points : ℚ) /
            ((evaluateQuizSubmission ⟨questions, none, none⟩ answers).1.max_points : ℚ)) * 100
          else 0) then "C".toList
        else if 60 ≤ (if 0 < (evaluateQuizSubmission ⟨questions, none, none⟩ answers).1.max_points then
          (((evaluateQuizSubmission ⟨questions, none, none⟩ answers).1.total_points : ℚ) /
            ((evaluateQuizSubmission ⟨questions, none, none⟩ answers).1.max_points : ℚ)) * 100
          else 0) then "D".toList
        else "F".toList)) ∧
    ((evaluateQuizSubmission c4Quiz c4Answers).1 =
      { total_questions := 5
        correct_answers := 3
        incorrect_answers := 2
        total_points := 30
        max_points := 50
        percentage_score := 60
        passed := true
        grade := "D".toList }) := by
  refine ⟨?_, rfl, rfl, rfl, by decide⟩
  show (Option.getD none ((questions.length : Int) * 10)) = 10 * questions.length
  simp [Option.getD]
  ring

/-- Claim C7: with `question_types = ["short_answer"]` the builder list is
a singleton, so every slot chooses `short_answer`, whose builder never
fails; with `content = ""` and `num_questions = 3` the quiz holds exactly
3 questions, all of type `short_answer`. -/
theorem claim_C7_short_answer_generation (now : List Char) (rng : Rng)
    (subject topic difficulty : List Char) :
    (generateQuizFromContent false now rng [] subject topic 3 difficulty
      (some ["short_answer".toList])).questions.length = 3 ∧
    ∀ q ∈ (generateQuizFromContent false now rng [] subject topic 3 difficulty
      (some ["short_answer".toList])).questions,
      q.qtype = "short_answer".toList := by
  have hslot : ∀ i paragraphs concepts,
      generateSlot rng i paragraphs concepts subject topic difficulty
        ["short_answer".toList] =
      some { qtype := "short_answer".toList
             question := "Explain the importance of ".toList ++ topic ++
               " in ".toList ++ subject ++ ".".toList
             options := none
             correct_answer := none
             sample_answer := some (topic ++ " is important in ".toList ++ subject ++
               " because it provides foundational understanding and practical applications.".toList)
             explanation := "This question tests understanding of the topic's significance and applications.".toList } := by
    intro i paragraphs concepts
    rw [generateSlot, pick_singleton]
    rfl
  have hqs : (generateQuizFromContent false now rng [] subject topic 3 difficulty
      (some ["short_answer".toList])).questions =
      (List.range 3).filterMap (fun i =>
        (generateSlot rng i (contentParagraphs []) (extractKeyConcepts []) subject
          topic difficulty ["short_answer".toList]).map (fun b =>
          { question_id := "q_".toList ++ natToChars (i + 1)
            qtype := b.qtype
            question := b.question
            options := b.options
            correct_answer := b.correct_answer
            sample_answer := b.sample_answer
            explanation := b.explanation
            points := 10 })) := by
    rfl
  rw [hqs, show List.range 3 = [0, 1, 2] from rfl]
  simp only [List.filterMap_cons, List.filterMap_nil, hslot, Option.map_some']
  refine ⟨rfl, ?_⟩
  intro q hq
  simp only [List.mem_cons, List.not_mem_nil, or_false] at hq
  rcases hq with rfl | rfl | rfl <;> rfl

/-- Claim C8, counterexample: with an empty paragraph list (and no key
concepts) the multiple-choice builder hits `random.choice([])` and
returns `None` instead of the generic topic-description question. -/
theorem claim_C8_cex_empty_paragraphs :
    generateMultipleChoice 0 0 0 [] [] "Mathematics".toList "Algebra".toList
      "medium".toList = none := by
  decide

/-- Claim C8, amended: whenever the key-concept list is empty and the two
`random.choice` selections at the head of the builder succeed (some
paragraph longer than 100 characters, and the chosen paragraph has a
sentence of stripped length over 20), the multiple-choice builder returns
the generic topic-description question with four options and correct
answer index 0. -/
theorem claim_C8_generic_mc (paraIdx sentIdx conceptIdx : Nat)
    (paragraphs : List (List Char)) (subject topic difficulty : List Char)
    (h : mcSelectionOk paraIdx paragraphs = true) :
    generateMultipleChoice paraIdx sentIdx conceptIdx paragraphs [] subject
      topic difficulty =
    some { qtype := "multiple_choice".toList
           question := "Which statement best describes ".toList ++ topic ++
             "?".toList
           options := some
             [topic ++ " is an important concept in ".toList ++ subject,
              topic ++ " is outdated in modern ".toList ++ subject,
              topic ++ " is only for advanced students".toList,
              topic ++ " has no practical applications".toList]
           correct_answer := some (.int 0)
           sample_answer := none
           explanation := "This concept is central to understanding ".toList ++
             topic ++ " in ".toList ++ subject ++ ".".toList } := by
  rw [mcSelectionOk] at h
  cases hp : pick paraIdx (mcCandidates paragraphs) with
  | none => rw [hp] at h; cases h
  | some p =>
    rw [hp] at h
    simp only [] at h
    have hs : mcSentences p ≠ [] := by
      intro hnil
      rw [hnil] at h
      cases h
    have hsome := pick_isSome sentIdx hs
    obtain ⟨fact, hfact⟩ := Option.isSome_iff_exists.mp hsome
    rw [generateMultipleChoice, hp]
    simp only []
    rw [hfact]
    rfl

/-- Witness for claim C8: one 104-character paragraph forming a single
long sentence. -/
theorem claim_C8_witness :
    mcSelectionOk 0
      ["the quick brown fox jumps over the lazy dog while the slow green turtle watches from beneath a warm rock".toList] = true ∧
    generateMultipleChoice 0 0 0
      ["the quick brown fox jumps over the lazy dog while the slow green turtle watches from beneath a warm rock".toList]
      [] "Science".toList "Biology".toList "medium".toList =
    some { qtype := "multiple_choice".toList
           question := "Which statement best describes ".toList ++ "Biology".toList ++
             "?".toList
           options := some
             ["Biology".toList ++ " is an important concept in ".toList ++ "Science".toList,
              "Biology".toList ++ " is outdated in modern ".toList ++ "Science".toList,
              "Biology".toList ++ " is only for advanced students".toList,
              "Biology".toList ++ " has no practical applications".toList]
           correct_answer := some (.int 0)
           sample_answer := none
           explanation := "This concept is central to understanding ".toList ++
             "Biology".toList ++ " in ".toList ++ "Science".toList ++ ".".toList } :=
  ⟨by decide,
    claim_C8_generic_mc 0 0 0
      ["the quick brown fox jumps over the lazy dog while the slow green turtle watches from beneath a warm rock".toList]
      "Science".toList "Biology".toList "medium".toList (by decide)⟩

/-- A choice oracle whose type choice at slot `i` is index `i`, used for
the claim C9 counterexample. -/
def rngC : Rng :=
  { typeAt := fun i => i
    paraAt := fun _ => 0
    sentAt := fun _ => 0
    conceptAt := fun _ => 0
    boolAt := fun _ => 0 }

/-- Claim C9, counterexample: with empty content, two slots and question
types `[multiple_choice, short_answer]`, the multiple-choice slot is
skipped, so the quiz holds one question whose identifier is `q_2`, not
the sequential `q_1`. -/
theorem claim_C9_cex_skipped_slot :
    ((generateQuestions rngC [] [] "Mathematics".toList "Algebra".toList 2
        "medium".toList ["multiple_choice".toList, "short_answer".toList]).length = 1) ∧
    ((generateQuestions rngC [] [] "Mathematics".toList "Algebra".toList 2
        "medium".toList ["multiple_choice".toList, "short_answer".toList]).map
      (fun q => q.question_id) ≠ ["q_1".toList]) := by
  refine ⟨by decide, by decide⟩

/-- Claim C9, amended: with a non-empty `question_types` list, every
generated question carries `points = 10` and the identifier `q_{i+1}` of
its originating slot `i`; the surviving slots are listed in increasing
order, so the identifiers are pairwise distinct (they are the sequential
`q_1 … q_k` exactly when no slot is skipped). -/
theorem claim_C9_question_ids (rng : Rng) (content : List Char)
    (concepts : List (List Char)) (subject topic difficulty : List Char)
    (n : Nat) (question_types : List (List Char)) (h : question_types ≠ []) :
    (∀ q ∈ generateQuestions rng content concepts subject topic n difficulty
      question_types, q.points = 10) ∧
    ∃ slots : List Nat, List.Pairwise (fun a b => a < b) slots ∧
      (∀ i ∈ slots, i < n) ∧
      (generateQuestions rng content concepts subject topic n difficulty
        question_types).map (fun q => q.question_id) =
        slots.map (fun i => "q_".toList ++ natToChars (i + 1)) ∧
      List.Pairwise (fun x y => x ≠ y)
        ((generateQuestions rng content concepts subject topic n difficulty
          question_types).map (fun q => q.question_id)) := by
  have hne : question_types.isEmpty ≠ true := by
    simp [List.isEmpty_iff, h]
  rw [generateQuestions, if_neg hne]
  simp only []
  constructor
  · intro q hq
    rw [List.mem_filterMap] at hq
    obtain ⟨i, _, hi⟩ := hq
    cases hg : generateSlot rng i (contentParagraphs content) concepts subject
        topic difficulty question_types with
    | none => rw [hg] at hi; cases hi
    | some b =>
      rw [hg] at hi
      simp only [Option.map_some', Option.some.injEq] at hi
      rw [← hi]
  · refine ⟨(List.range n).filter (fun i => (generateSlot rng i
      (contentParagraphs content) concepts subject topic difficulty
      question_types).isSome), ?_, ?_, ?_, ?_⟩
    · exact (List.pairwise_lt_range n).filter _
    · intro i hi
      rw [List.mem_filter] at hi
      exact List.mem_range.mp hi.1
    · exact filterMap_map_id_eq (fun i => generateSlot rng i (contentParagraphs content) concepts subject
        topic difficulty question_types)
        (fun i b =>
        ({ question_id := "q_".toList ++ natToChars (i + 1), qtype := b.qtype,
           question := b.question, options := b.options,
           correct_answer := b.correct_answer, sample_answer := b.sample_answer,
           explanation := b.explanation, points := 10 } : GenQuestion)) (fun q => q.question_id)
        (fun i => "q_".toList ++ natToChars (i + 1)) (fun i b => rfl)
        (List.range n)
    · rw [filterMap_map_id_eq (fun i => generateSlot rng i (contentParagraphs content) concepts subject
        topic difficulty question_types)
        (fun i b =>
        ({ question_id := "q_".toList ++ natToChars (i + 1), qtype := b.qtype,
           question := b.question, options := b.options,
           correct_answer := b.correct_answer, sample_answer := b.sample_answer,
           explanation := b.explanation, points := 10 } : GenQuestion)) (fun q => q.question_id)
        (fun i => "q_".toList ++ natToChars (i + 1)) (fun i b => rfl)
        (List.range n), List.pairwise_map]
      refine ((List.pairwise_lt_range n).filter _).imp ?_
      intro a b hab heq
      have := natToChars_injective (List.append_cancel_left heq)
      omega

/-- Witness for claim C9 with a single short-answer slot. -/
theorem claim_C9_witness :
    (["short_answer".toList] ≠ ([] : List (List Char))) ∧
    ((∀ q ∈ generateQuestions rngC [] [] "Mathematics".toList "Algebra".toList 1
      "medium".toList ["short_answer".toList], q.points = 10) ∧
    ∃ slots : List Nat, List.Pairwise (fun a b => a < b) slots ∧
      (∀ i ∈ slots, i < 1) ∧
      (generateQuestions rngC [] [] "Mathematics".toList "Algebra".toList 1
        "medium".toList ["short_answer".toList]).map (fun q => q.question_id) =
        slots.map (fun i => "q_".toList ++ natToChars (i + 1)) ∧
      List.Pairwise (fun x y => x ≠ y)
        ((generateQuestions rngC [] [] "Mathematics".toList "Algebra".toList 1
          "medium".toList ["short_answer".toList]).map (fun q => q.question_id))) :=
  ⟨by decide,
    claim_C9_question_ids rngC [] [] "Mathematics".toList "Algebra".toList
      "medium".toList 1 ["short_answer".toList] (by decide)⟩
